import Mathlib

/-!
# Verification of the AI resume matching engine core

Shallow embedding of `backend/app` (matcher, dedup gate, OAuth connectors,
in-memory store, import orchestration) and proofs of the spec's claims.

Texts are embedded as `List Char` (`Str`); Python floats are modelled as
exact rationals `ℚ`; Python dicts keyed by state tokens are association
lists; the filesystem token file is an `Option` field of the connector
state; network calls (code/token exchange, harvest) are oracle parameters.
String primitives (`strip`, `lower`, `split`) are modelled over the ASCII
fragment the repository exercises.
-/

namespace ResumeEngine

/-- Texts are lists of characters (Python `str`). -/
abbrev Str := List Char

/-- Conversion from a Lean string literal to the embedded text type. -/
def str (s : String) : Str := s.data

/-- ASCII whitespace, as recognised by Python `str.strip` / `str.split`. -/
def isSpaceChar (c : Char) : Bool :=
  c = ' ' || c = '\t' || c = '\n' || c = '\r' || c = '\x0b' || c = '\x0c'

/-- Python `str.lower` (ASCII fragment). -/
def listToLower (s : Str) : Str := s.map Char.toLower

/-- Python `str.strip()`: drop leading and trailing whitespace. -/
def stripChars (s : Str) : Str :=
  ((s.dropWhile isSpaceChar).reverse.dropWhile isSpaceChar).reverse

/-- Helper for `splitWs`: accumulates the current word (reversed). -/
def splitWsAux : Str → Str → List Str
  | [], acc => if acc = [] then [] else [acc.reverse]
  | c :: cs, acc =>
    if isSpaceChar c then
      if acc = [] then splitWsAux cs [] else acc.reverse :: splitWsAux cs []
    else splitWsAux cs (c :: acc)

/-- Python `str.split()` with no argument: split on runs of whitespace,
dropping empty pieces. -/
def splitWs (s : Str) : List Str := splitWsAux s []

/-- Python substring test `needle in hay` (on already-lowercased text). -/
def hasSub (needle hay : Str) : Bool :=
  hay.tails.any (fun t => needle.isPrefixOf t)

/-! ## Scoring engine (`services/matcher.py`) -/

/-- `_normalize_skill`: `value.strip().lower()`. -/
def normalizeSkill (value : Str) : Str := listToLower (stripChars value)

/-- The normalized required-skill list of `JobMatcher.skill_overlap`:
`[_normalize_skill(skill) for skill in required_skills if skill.strip()]`. -/
def normalizeRequired (required_skills : List Str) : List Str :=
  (required_skills.filter (fun sk => decide (stripChars sk ≠ []))).map normalizeSkill

/-- The per-skill match test of the `skill_overlap` loop:
`skill in resume_skill_set or skill in resume_text_lower`. -/
def skillMatched (resume_skills : List Str) (resume_text : Str) (sk : Str) : Bool :=
  decide (sk ∈ resume_skills.map normalizeSkill) || hasSub sk (listToLower resume_text)

/-- The accumulation loop of `skill_overlap`: counts matched skills and
collects the missing ones in declared order. -/
def overlapLoop (isM : Str → Bool) : List Str → Nat × List Str
  | [] => (0, [])
  | sk :: rest =>
    let acc := overlapLoop isM rest
    if isM sk then (acc.1 + 1, acc.2) else (acc.1, sk :: acc.2)

/-- `JobMatcher.skill_overlap` (scores as exact rationals). -/
def skillOverlap (required_skills resume_skills : List Str) (resume_text : Str) :
    ℚ × List Str :=
  let required := normalizeRequired required_skills
  if required = [] then (1, [])
  else
    let acc := overlapLoop (skillMatched resume_skills resume_text) required
    ((acc.1 : ℚ) / (required.length : ℚ), acc.2)

/-- `Job` record (`models.py`). -/
structure Job where
  id : ℤ
  title : Str
  description : Str
  required_skills : List Str
deriving DecidableEq

/-- `Resume` record (`models.py`). -/
structure Resume where
  id : ℤ
  candidate_name : Str
  text : Str
  skills : List Str
deriving DecidableEq

/-- `MatchScore` dataclass (`services/matcher.py`). -/
structure MatchScore where
  semantic_score : ℚ
  skill_score : ℚ
  final_score : ℚ
  missing_skills : List Str
deriving DecidableEq

/-- `JobMatcher.match`. The semantic-similarity subcomponent (embedding
model or TF-IDF fallback, both clipped into `[0,1]`) is an external ML
collaborator, abstracted as the oracle `semantic`. -/
def JobMatcher.match (semantic : Str → Str → ℚ) (job : Job) (resume : Resume) :
    MatchScore :=
  let sem := semantic job.description resume.text
  let acc := skillOverlap job.required_skills resume.skills resume.text
  { semantic_score := sem
    skill_score := acc.1
    final_score := 0.75 * sem + 0.25 * acc.1
    missing_skills := acc.2 }

/-! ### Helper lemmas for the matcher -/

theorem overlapLoop_eq (isM : Str → Bool) (l : List Str) :
    overlapLoop isM l = (l.countP isM, l.filter (fun sk => !isM sk)) := by
  induction l with
  | nil => simp [overlapLoop]
  | cons sk rest ih =>
    simp only [overlapLoop, ih, List.countP_cons, List.filter_cons]
    cases h : isM sk <;> simp

/-- Example job used to instantiate the blend-weight claim. -/
def exJob : Job :=
  { id := 1, title := str "Engineer", description := str "desc"
    required_skills := [str "a", str "b", str "c", str "d", str "e"] }

/-- Example resume used to instantiate the blend-weight claim. -/
def exResume : Resume :=
  { id := 1, candidate_name := str "Jane", text := str "zzz"
    skills := [str "a", str "b"] }

/-- C1: the final score is exactly the fixed 0.75/0.25 linear blend of the
semantic and skill scores, with no further normalization; in particular a
semantic score of 0.8 and a skill score of 0.4 give a final score of 0.70. -/
theorem final_score_is_fixed_blend :
    (∀ (semantic : Str → Str → ℚ) (job : Job) (r : Resume),
      (JobMatcher.match semantic job r).final_score =
        0.75 * (JobMatcher.match semantic job r).semantic_score +
          0.25 * (JobMatcher.match semantic job r).skill_score) ∧
    (JobMatcher.match (fun _ _ => 0.8) exJob exResume).semantic_score = 0.8 ∧
    (JobMatcher.match (fun _ _ => 0.8) exJob exResume).skill_score = 0.4 ∧
    (JobMatcher.match (fun _ _ => 0.8) exJob exResume).final_score = 0.70 := by
  have hacc : overlapLoop (skillMatched exResume.skills exResume.text)
      (normalizeRequired exJob.required_skills) = (2, [str "c", str "d", str "e"]) := by
    decide
  have hne : normalizeRequired exJob.required_skills ≠ [] := by decide
  have hlen : (normalizeRequired exJob.required_skills).length = 5 := by decide
  have hsk : (skillOverlap exJob.required_skills exResume.skills exResume.text).1 =
      (2 : ℚ) / 5 := by
    simp only [skillOverlap, if_neg hne, hacc, hlen]
    norm_num
  refine ⟨fun semantic job r => rfl, rfl, ?_, ?_⟩
  · show (skillOverlap exJob.required_skills exResume.skills exResume.text).1 = 0.4
    rw [hsk]; norm_num
  · show 0.75 * (0.8 : ℚ) +
        0.25 * (skillOverlap exJob.required_skills exResume.skills exResume.text).1 = 0.70
    rw [hsk]; norm_num

/-- C2: `skill_overlap` first normalizes the required skills (trim,
lowercase, drop blanks); on an empty normalized list it returns score 1.0
and no missing skills; otherwise it returns matched/required-count where a
required skill matches iff it is verbatim in the normalized resume-skill
set or a case-insensitive substring of the resume text, and the missing
list is exactly the unmatched normalized skills in declared order. -/
theorem skill_overlap_spec (required_skills resume_skills : List Str)
    (resume_text : Str) :
    (normalizeRequired required_skills = [] →
      skillOverlap required_skills resume_skills resume_text = (1, [])) ∧
    (normalizeRequired required_skills ≠ [] →
      skillOverlap required_skills resume_skills resume_text =
        (((normalizeRequired required_skills).countP
            (skillMatched resume_skills resume_text) : ℚ) /
          ((normalizeRequired required_skills).length : ℚ),
         (normalizeRequired required_skills).filter
            (fun sk => !skillMatched resume_skills resume_text sk))) := by
  constructor
  · intro h
    simp [skillOverlap, h]
  · intro h
    simp only [skillOverlap, if_neg h, overlapLoop_eq]

/-- Witness for C2 at the spec's own example:
`skill_score(required=["Python","SQL"], resume_skills=["python"], text)` is
`(0.5, ["sql"])`. -/
theorem skill_overlap_spec_witness :
    normalizeRequired [str "Python", str "SQL"] ≠ [] ∧
    skillOverlap [str "Python", str "SQL"] [str "python"] (str "objective text") =
      ((1 : ℚ) / 2, [str "sql"]) := by
  constructor
  · decide
  · have h := (skill_overlap_spec [str "Python", str "SQL"] [str "python"]
      (str "objective text")).2 (by decide)
    rw [h]
    have hc : (normalizeRequired [str "Python", str "SQL"]).countP
        (skillMatched [str "python"] (str "objective text")) = 1 := by decide
    have hl : (normalizeRequired [str "Python", str "SQL"]).length = 2 := by decide
    have hf : (normalizeRequired [str "Python", str "SQL"]).filter
        (fun sk => !skillMatched [str "python"] (str "objective text") sk) =
          [str "sql"] := by decide
    rw [hc, hl, hf]
    norm_num

/-! ## Dedup gate (`routers/resumes.py`) -/

/-- `_text_fingerprint`: `" ".join(text.lower().split())[:500]`. -/
def textFingerprint (text : Str) : Str :=
  (List.intercalate [' '] (splitWs (listToLower text))).take 500

/-- The name component compared by `_is_duplicate_resume`:
`candidate_name.strip().lower()`. -/
def nameKey (candidate_name : Str) : Str := listToLower (stripChars candidate_name)

/-- A harvested or stored document, reduced to the fields the dedup gate
inspects. -/
structure Document where
  candidate_name : Str
  text : Str
deriving DecidableEq

/-- The dedup fingerprint: name component paired with text component. -/
def fingerprint (d : Document) : Str × Str :=
  (nameKey d.candidate_name, textFingerprint d.text)

/-- The duplicate relation on two documents induced by
`_is_duplicate_resume`: both fingerprint components match exactly. -/
def isDuplicateDoc (a b : Document) : Bool :=
  decide (nameKey a.candidate_name = nameKey b.candidate_name) &&
    decide (textFingerprint a.text = textFingerprint b.text)

/-- `_is_duplicate_resume`: scans the store; skips entries whose name key
differs, reports a duplicate on a text-fingerprint match. -/
def isDuplicateResume (candidate_name text : Str) (resumes : List Resume) : Bool :=
  resumes.any (fun existing =>
    if decide (nameKey existing.candidate_name ≠ nameKey candidate_name) then false
    else decide (textFingerprint existing.text = textFingerprint text))

/-- C3 counterexample: the claim's example pair does NOT fingerprint
identically — the name component keeps internal whitespace
(`"John  Doe".strip().lower() = "john  doe" ≠ "john doe"`), so the two
documents are not duplicates either. -/
theorem fingerprint_internal_whitespace_counterexample :
    fingerprint ⟨str "John  Doe", str "Text  here"⟩ ≠
      fingerprint ⟨str "john doe", str "text here"⟩ ∧
    isDuplicateDoc ⟨str "John  Doe", str "Text  here"⟩
      ⟨str "john doe", str "text here"⟩ = false ∧
    isDuplicateResume (str "John  Doe") (str "Text  here")
      [{ id := 1, candidate_name := str "john doe", text := str "text here",
         skills := [] }] = false := by
  refine ⟨by decide, by decide, by decide⟩

/-- C3 (amended): the duplicate relation is reflexive and symmetric and
holds iff both fingerprint components match exactly; the name component is
the trimmed lowercased name (internal whitespace preserved, so insensitive
only to case and leading/trailing whitespace), the text component is the
lowercased whitespace-collapsed text truncated to 500 characters; e.g.
`("John Doe ", "Text  here")` and `("john doe", "text here")` fingerprint
identically, and the store scan is exactly this relation against each
stored resume. -/
theorem dedup_relation_amended :
    (∀ a : Document, isDuplicateDoc a a = true) ∧
    (∀ a b : Document, isDuplicateDoc a b = isDuplicateDoc b a) ∧
    (∀ a b : Document,
      isDuplicateDoc a b = decide (fingerprint a = fingerprint b)) ∧
    (∀ (candidate_name text : Str) (resumes : List Resume),
      isDuplicateResume candidate_name text resumes =
        resumes.any (fun r =>
          isDuplicateDoc ⟨candidate_name, text⟩ ⟨r.candidate_name, r.text⟩)) ∧
    fingerprint ⟨str "John Doe ", str "Text  here"⟩ =
      fingerprint ⟨str "john doe", str "text here"⟩ ∧
    (∀ text : Str, (textFingerprint text).length ≤ 500) := by
  refine ⟨?_, ?_, ?_, ?_, by decide, ?_⟩
  · intro a
    simp [isDuplicateDoc]
  · intro a b
    simp only [isDuplicateDoc]
    by_cases h1 : nameKey a.candidate_name = nameKey b.candidate_name <;>
      by_cases h2 : textFingerprint a.text = textFingerprint b.text <;>
        simp [h1, h2, eq_comm]
  · intro a b
    simp [isDuplicateDoc, fingerprint, Prod.ext_iff]
  · intro candidate_name text resumes
    simp only [isDuplicateResume]
    refine congrArg resumes.any (funext fun r => ?_)
    by_cases h1 : nameKey r.candidate_name = nameKey candidate_name
    · by_cases h2 : textFingerprint r.text = textFingerprint text
      · simp [isDuplicateDoc, h1, h2]
      · have h2' : ¬textFingerprint text = textFingerprint r.text :=
          fun hh => h2 hh.symm
        simp [isDuplicateDoc, h1, h2, h2']
    · have h1' : ¬nameKey candidate_name = nameKey r.candidate_name :=
        fun hh => h1 hh.symm
      simp [isDuplicateDoc, h1, h1']
  · intro text
    exact List.length_take_le 500 _

/-! ## OAuth connectors (`services/gmail_client.py`, `services/linkedin_client.py`)

The pending-authorization registries are Python dicts keyed by the opaque
state token; we model them as association lists (insertion order, unique
keys maintained by dict semantics). Wall-clock instants (`time.time()`)
are rationals. Network exchanges are oracle parameters mapping the
authorization code to the provider's response or a transport failure. -/

/-- `PendingOAuthState` / `PendingLinkedInState` (minus the redundant
`state` field, which duplicates the dict key). -/
structure PendingEntry where
  redirect_uri : Str
  created_at : ℚ
deriving DecidableEq

/-- The `_pending_states` dict. -/
abbrev PendingRegistry := List (Str × PendingEntry)

/-- `self._pending_states.get(state)`. -/
def lookupState (state : Str) (pending : PendingRegistry) : Option PendingEntry :=
  (pending.find? (fun e => decide (e.1 = state))).map (fun e => e.2)

/-- `self._pending_states.pop(state, None)` (the mutation part). -/
def popState (state : Str) (pending : PendingRegistry) : PendingRegistry :=
  pending.filter (fun e => decide (e.1 ≠ state))

/-- `self._pending_states[state] = entry`: replace in place if present,
append otherwise (Python dict insertion semantics). -/
def insertState (state : Str) (entry : PendingEntry) (pending : PendingRegistry) :
    PendingRegistry :=
  if pending.any (fun e => decide (e.1 = state)) then
    pending.map (fun e => if e.1 = state then (state, entry) else e)
  else pending ++ [(state, entry)]

/-- `_oauth_state_ttl_seconds`, set to 900 in both connectors. -/
def oauthStateTtlSeconds : ℚ := 900

/-- `_cleanup_expired_states` (identical in both connectors): drop every
entry with `now - created_at > ttl`. -/
def cleanupStates (now : ℚ) (pending : PendingRegistry) : PendingRegistry :=
  pending.filter (fun e => decide (now - e.2.created_at ≤ oauthStateTtlSeconds))

/-- Gmail connector state: pending registry plus the `token.json` file
(`none` = absent). The discovery-service cache and `credentials.json` web
client are collapsed to the one bit `start_browser_oauth` inspects. -/
structure GmailState where
  pending : PendingRegistry
  token : Option Str
  webClient : Bool
deriving DecidableEq

namespace GmailClient

/-- `GmailResumeClient.start_browser_oauth`. `fresh` is the random state
produced by `flow.authorization_url`; the returned authorization URL is
abstracted to that state token. -/
def startBrowserOauth (c : GmailState) (now : ℚ) (redirect_uri fresh : Str) :
    Except Str Str × GmailState :=
  if !c.webClient then
    (.error (str "OAuth client is not configured as Web application."), c)
  else
    let cleaned := cleanupStates now c.pending
    (.ok fresh, { c with pending := insertState fresh ⟨redirect_uri, now⟩ cleaned })

/-- `GmailResumeClient.finish_browser_oauth`. `exchange` models
`flow.fetch_token` on the supplied code, yielding the credential JSON to
persist or a failure. -/
def finishBrowserOauth (c : GmailState) (now : ℚ) (state code redirect_uri : Str)
    (exchange : Str → Except Unit Str) : Except Str Unit × GmailState :=
  let c1 : GmailState := { c with pending := cleanupStates now c.pending }
  match lookupState state c1.pending with
  | none => (.error (str "OAuth session expired. Click Connect Gmail again."), c1)
  | some p =>
    if p.redirect_uri ≠ redirect_uri then
      (.error (str "OAuth redirect mismatch. Start Gmail connection again."),
        { c1 with pending := popState state c1.pending })
    else
      match exchange code with
      | .error _ => (.error (str "Could not complete Gmail authorization."), c1)
      | .ok tok =>
        (.ok (), { c1 with pending := popState state c1.pending, token := some tok })

end GmailClient

/-- The `expires_in` field of the LinkedIn token response: absent, a
numeric value (`int(expires_in)` of an int/float/numeric str), or some
other JSON value. -/
inductive LIExpiresIn
  | absent
  | num (n : ℤ)
  | other
deriving DecidableEq

/-- `int(expires_in) if isinstance(expires_in, (int, float, str)) else 3600`
(with the absent case also defaulting). -/
def expiresSeconds : LIExpiresIn → ℤ
  | .num n => n
  | _ => 3600

/-- The parsed LinkedIn token-endpoint response body. -/
structure LITokenData where
  access_token : Option Str
  expires_in : LIExpiresIn
deriving DecidableEq

/-- The persisted `linkedin_token.json`: the full response payload plus
`created_at` and `expires_at`. -/
structure LIStoredToken where
  data : LITokenData
  created_at : ℚ
  expires_at : ℚ
deriving DecidableEq

/-- LinkedIn connector state. -/
structure LinkedInState where
  pending : PendingRegistry
  token : Option LIStoredToken
  client_id : Str
  client_secret : Str
deriving DecidableEq

namespace LinkedInClient

/-- `_validate_client_config` as a predicate: both credentials non-blank. -/
def validConfig (c : LinkedInState) : Bool :=
  decide (stripChars c.client_id ≠ []) && decide (stripChars c.client_secret ≠ [])

/-- `LinkedInResumeClient.start_browser_oauth`; `fresh` models
`secrets.token_urlsafe(24)`. -/
def startBrowserOauth (c : LinkedInState) (now : ℚ) (redirect_uri fresh : Str) :
    Except Str Str × LinkedInState :=
  if !validConfig c then
    (.error (str "LinkedIn OAuth client is not configured."), c)
  else
    let cleaned := cleanupStates now c.pending
    (.ok fresh, { c with pending := insertState fresh ⟨redirect_uri, now⟩ cleaned })

/-- `LinkedInResumeClient.finish_browser_oauth`. `exchange` models the
token-endpoint POST for the supplied code: a transport failure or the
parsed JSON body. -/
def finishBrowserOauth (c : LinkedInState) (now : ℚ) (state code redirect_uri : Str)
    (exchange : Str → Except Unit LITokenData) : Except Str Unit × LinkedInState :=
  if !validConfig c then
    (.error (str "LinkedIn OAuth client is not configured."), c)
  else
    let c1 : LinkedInState := { c with pending := cleanupStates now c.pending }
    match lookupState state c1.pending with
    | none =>
      (.error (str "LinkedIn OAuth session expired. Try connecting again."), c1)
    | some p =>
      if p.redirect_uri ≠ redirect_uri then
        (.error (str "LinkedIn OAuth redirect mismatch."),
          { c1 with pending := popState state c1.pending })
      else
        match exchange code with
        | .error _ =>
          (.error (str "LinkedIn token exchange failed."),
            { c1 with pending := popState state c1.pending })
        | .ok token_data =>
          match token_data.access_token with
          | none =>
            (.error (str "LinkedIn token response did not include access token."),
              { c1 with pending := popState state c1.pending })
          | some tok =>
            if tok = [] then
              (.error (str "LinkedIn token response did not include access token."),
                { c1 with pending := popState state c1.pending })
            else
              let stored : LIStoredToken :=
                { data := token_data, created_at := now,
                  expires_at := now +
                    ((max 60 (expiresSeconds token_data.expires_in - 60) : ℤ) : ℚ) }
              (.ok (),
                { c1 with pending := popState state c1.pending, token := some stored })

end LinkedInClient

/-! ### Registry lemmas -/

theorem lookupState_eq_none_iff (state : Str) (pending : PendingRegistry) :
    lookupState state pending = none ↔ ∀ e ∈ pending, e.1 ≠ state := by
  unfold lookupState
  rw [Option.map_eq_none', List.find?_eq_none]
  constructor
  · intro h e he
    have h2 := h e he
    simpa using h2
  · intro h e he
    simpa using h e he

theorem lookupState_popState (state : Str) (pending : PendingRegistry) :
    lookupState state (popState state pending) = none := by
  rw [lookupState_eq_none_iff]
  intro e he
  have h := (List.mem_filter.mp he).2
  simpa using h

theorem lookupState_cleanup_none (now : ℚ) (state : Str) (pending : PendingRegistry)
    (h : lookupState state pending = none) :
    lookupState state (cleanupStates now pending) = none := by
  rw [lookupState_eq_none_iff] at h ⊢
  intro e he
  exact h e (List.mem_filter.mp he).1

theorem lookupState_cleanup_expired (now : ℚ) (state : Str) (pending : PendingRegistry)
    (h : ∀ e ∈ pending, e.1 = state →
      now - e.2.created_at > oauthStateTtlSeconds) :
    lookupState state (cleanupStates now pending) = none := by
  rw [lookupState_eq_none_iff]
  intro e he hst
  rcases List.mem_filter.mp he with ⟨hmem, hkeep⟩
  have hexp := h e hmem hst
  simp only [decide_eq_true_eq] at hkeep
  exact absurd hkeep (not_le.mpr hexp)

theorem lookupState_insertState_none (state fresh : Str) (entry : PendingEntry)
    (pending : PendingRegistry) (h : lookupState state pending = none)
    (hne : fresh ≠ state) :
    lookupState state (insertState fresh entry pending) = none := by
  rw [lookupState_eq_none_iff] at h ⊢
  intro e he
  unfold insertState at he
  by_cases hp : pending.any (fun e => decide (e.1 = fresh))
  · rw [if_pos hp] at he
    rcases List.mem_map.mp he with ⟨x, hx, hxe⟩
    by_cases hxf : x.1 = fresh
    · rw [if_pos hxf] at hxe
      rw [← hxe]
      exact hne
    · rw [if_neg hxf] at hxe
      rw [← hxe]
      exact h x hx
  · rw [if_neg hp] at he
    rcases List.mem_append.mp he with hl | hr
    · exact h e hl
    · rw [List.mem_singleton.mp hr]
      exact hne

/-! ### Branch characterizations of `finish_browser_oauth` -/

theorem gmail_finish_lookup_none (c : GmailState) (now : ℚ)
    (state code redirect_uri : Str) (exchange : Str → Except Unit Str)
    (h : lookupState state (cleanupStates now c.pending) = none) :
    GmailClient.finishBrowserOauth c now state code redirect_uri exchange =
      (.error (str "OAuth session expired. Click Connect Gmail again."),
        { c with pending := cleanupStates now c.pending }) := by
  unfold GmailClient.finishBrowserOauth
  simp [h]

theorem gmail_finish_mismatch (c : GmailState) (now : ℚ)
    (state code redirect_uri : Str) (exchange : Str → Except Unit Str)
    (p : PendingEntry)
    (hp : lookupState state (cleanupStates now c.pending) = some p)
    (hne : p.redirect_uri ≠ redirect_uri) :
    GmailClient.finishBrowserOauth c now state code redirect_uri exchange =
      (.error (str "OAuth redirect mismatch. Start Gmail connection again."),
        { c with pending := popState state (cleanupStates now c.pending) }) := by
  unfold GmailClient.finishBrowserOauth
  simp [hp, hne]

theorem gmail_finish_exchange_error (c : GmailState) (now : ℚ)
    (state code redirect_uri : Str) (exchange : Str → Except Unit Str)
    (p : PendingEntry)
    (hp : lookupState state (cleanupStates now c.pending) = some p)
    (hre : p.redirect_uri = redirect_uri) (hex : exchange code = .error ()) :
    GmailClient.finishBrowserOauth c now state code redirect_uri exchange =
      (.error (str "Could not complete Gmail authorization."),
        { c with pending := cleanupStates now c.pending }) := by
  unfold GmailClient.finishBrowserOauth
  simp [hp, hre, hex]

theorem gmail_finish_success (c : GmailState) (now : ℚ)
    (state code redirect_uri : Str) (exchange : Str → Except Unit Str)
    (p : PendingEntry) (tok : Str)
    (hp : lookupState state (cleanupStates now c.pending) = some p)
    (hre : p.redirect_uri = redirect_uri) (hex : exchange code = .ok tok) :
    GmailClient.finishBrowserOauth c now state code redirect_uri exchange =
      (.ok (),
        { c with
            pending := popState state (cleanupStates now c.pending),
            token := some tok }) := by
  unfold GmailClient.finishBrowserOauth
  simp [hp, hre, hex]

theorem li_finish_invalid_config (c : LinkedInState) (now : ℚ)
    (state code redirect_uri : Str) (exchange : Str → Except Unit LITokenData)
    (hv : LinkedInClient.validConfig c = false) :
    LinkedInClient.finishBrowserOauth c now state code redirect_uri exchange =
      (.error (str "LinkedIn OAuth client is not configured."), c) := by
  unfold LinkedInClient.finishBrowserOauth
  simp [hv]

theorem li_finish_lookup_none (c : LinkedInState) (now : ℚ)
    (state code redirect_uri : Str) (exchange : Str → Except Unit LITokenData)
    (hv : LinkedInClient.validConfig c = true)
    (h : lookupState state (cleanupStates now c.pending) = none) :
    LinkedInClient.finishBrowserOauth c now state code redirect_uri exchange =
      (.error (str "LinkedIn OAuth session expired. Try connecting again."),
        { c with pending := cleanupStates now c.pending }) := by
  unfold LinkedInClient.finishBrowserOauth
  simp [hv, h]

theorem li_finish_mismatch (c : LinkedInState) (now : ℚ)
    (state code redirect_uri : Str) (exchange : Str → Except Unit LITokenData)
    (p : PendingEntry)
    (hv : LinkedInClient.validConfig c = true)
    (hp : lookupState state (cleanupStates now c.pending) = some p)
    (hne : p.redirect_uri ≠ redirect_uri) :
    LinkedInClient.finishBrowserOauth c now state code redirect_uri exchange =
      (.error (str "LinkedIn OAuth redirect mismatch."),
        { c with pending := popState state (cleanupStates now c.pending) }) := by
  unfold LinkedInClient.finishBrowserOauth
  simp [hv, hp, hne]

theorem li_finish_exchange_error (c : LinkedInState) (now : ℚ)
    (state code redirect_uri : Str) (exchange : Str → Except Unit LITokenData)
    (p : PendingEntry)
    (hv : LinkedInClient.validConfig c = true)
    (hp : lookupState state (cleanupStates now c.pending) = some p)
    (hre : p.redirect_uri = redirect_uri) (hex : exchange code = .error ()) :
    LinkedInClient.finishBrowserOauth c now state code redirect_uri exchange =
      (.error (str "LinkedIn token exchange failed."),
        { c with pending := popState state (cleanupStates now c.pending) }) := by
  unfold LinkedInClient.finishBrowserOauth
  simp [hv, hp, hre, hex]

theorem li_finish_token_absent (c : LinkedInState) (now : ℚ)
    (state code redirect_uri : Str) (exchange : Str → Except Unit LITokenData)
    (p : PendingEntry) (td : LITokenData)
    (hv : LinkedInClient.validConfig c = true)
    (hp : lookupState state (cleanupStates now c.pending) = some p)
    (hre : p.redirect_uri = redirect_uri) (hex : exchange code = .ok td)
    (hat : td.access_token = none) :
    LinkedInClient.finishBrowserOauth c now state code redirect_uri exchange =
      (.error (str "LinkedIn token response did not include access token."),
        { c with pending := popState state (cleanupStates now c.pending) }) := by
  unfold LinkedInClient.finishBrowserOauth
  simp [hv, hp, hre, hex, hat]

theorem li_finish_token_empty (c : LinkedInState) (now : ℚ)
    (state code redirect_uri : Str) (exchange : Str → Except Unit LITokenData)
    (p : PendingEntry) (td : LITokenData)
    (hv : LinkedInClient.validConfig c = true)
    (hp : lookupState state (cleanupStates now c.pending) = some p)
    (hre : p.redirect_uri = redirect_uri) (hex : exchange code = .ok td)
    (hat : td.access_token = some []) :
    LinkedInClient.finishBrowserOauth c now state code redirect_uri exchange =
      (.error (str "LinkedIn token response did not include access token."),
        { c with pending := popState state (cleanupStates now c.pending) }) := by
  unfold LinkedInClient.finishBrowserOauth
  simp [hv, hp, hre, hex, hat]

theorem li_finish_success (c : LinkedInState) (now : ℚ)
    (state code redirect_uri : Str) (exchange : Str → Except Unit LITokenData)
    (p : PendingEntry) (td : LITokenData) (tok : Str)
    (hv : LinkedInClient.validConfig c = true)
    (hp : lookupState state (cleanupStates now c.pending) = some p)
    (hre : p.redirect_uri = redirect_uri) (hex : exchange code = .ok td)
    (hat : td.access_token = some tok) (htok : tok ≠ []) :
    LinkedInClient.finishBrowserOauth c now state code redirect_uri exchange =
      (.ok (),
        { c with
            pending := popState state (cleanupStates now c.pending),
            token := some
              { data := td, created_at := now,
                expires_at := now +
                  ((max 60 (expiresSeconds td.expires_in - 60) : ℤ) : ℚ) } }) := by
  unfold LinkedInClient.finishBrowserOauth
  simp [hv, hp, hre, hex, hat, htok]

/-- C4: for both connectors, `finish_browser_oauth` with a state absent
from the (just-purged) pending registry fails `AuthRequired` and writes no
token; with a known state whose recorded redirect target differs from the
supplied one it fails `AuthRequired`, removes the pending entry, and any
subsequent call with the same state also fails with the token still
unwritten (no replay). -/
theorem finish_oauth_rejects_unknown_and_mismatched_states :
    (∀ (c : GmailState) (now : ℚ) (state code redirect_uri : Str)
        (exchange : Str → Except Unit Str),
      (lookupState state (cleanupStates now c.pending) = none →
        (∃ msg, (GmailClient.finishBrowserOauth c now state code redirect_uri
            exchange).1 = .error msg) ∧
        (GmailClient.finishBrowserOauth c now state code redirect_uri
            exchange).2.token = c.token) ∧
      (∀ p, lookupState state (cleanupStates now c.pending) = some p →
        p.redirect_uri ≠ redirect_uri →
        (∃ msg, (GmailClient.finishBrowserOauth c now state code redirect_uri
            exchange).1 = .error msg) ∧
        (GmailClient.finishBrowserOauth c now state code redirect_uri
            exchange).2.token = c.token ∧
        lookupState state (GmailClient.finishBrowserOauth c now state code
            redirect_uri exchange).2.pending = none ∧
        (∀ (now2 : ℚ) (code2 redirect2 : Str)
            (exchange2 : Str → Except Unit Str),
          (∃ msg, (GmailClient.finishBrowserOauth
              (GmailClient.finishBrowserOauth c now state code redirect_uri
                exchange).2 now2 state code2 redirect2 exchange2).1 =
                  .error msg) ∧
          (GmailClient.finishBrowserOauth
              (GmailClient.finishBrowserOauth c now state code redirect_uri
                exchange).2 now2 state code2 redirect2 exchange2).2.token =
            c.token))) ∧
    (∀ (c : LinkedInState) (now : ℚ) (state code redirect_uri : Str)
        (exchange : Str → Except Unit LITokenData),
      (lookupState state (cleanupStates now c.pending) = none →
        (∃ msg, (LinkedInClient.finishBrowserOauth c now state code
            redirect_uri exchange).1 = .error msg) ∧
        (LinkedInClient.finishBrowserOauth c now state code redirect_uri
            exchange).2.token = c.token) ∧
      (LinkedInClient.validConfig c = true →
        ∀ p, lookupState state (cleanupStates now c.pending) = some p →
        p.redirect_uri ≠ redirect_uri →
        (∃ msg, (LinkedInClient.finishBrowserOauth c now state code
            redirect_uri exchange).1 = .error msg) ∧
        (LinkedInClient.finishBrowserOauth c now state code redirect_uri
            exchange).2.token = c.token ∧
        lookupState state (LinkedInClient.finishBrowserOauth c now state code
            redirect_uri exchange).2.pending = none ∧
        (∀ (now2 : ℚ) (code2 redirect2 : Str)
            (exchange2 : Str → Except Unit LITokenData),
          (∃ msg, (LinkedInClient.finishBrowserOauth
              (LinkedInClient.finishBrowserOauth c now state code redirect_uri
                exchange).2 now2 state code2 redirect2 exchange2).1 =
                  .error msg) ∧
          (LinkedInClient.finishBrowserOauth
              (LinkedInClient.finishBrowserOauth c now state code redirect_uri
                exchange).2 now2 state code2 redirect2 exchange2).2.token =
            c.token))) := by
  constructor
  · intro c now state code redirect_uri exchange
    constructor
    · intro h
      rw [gmail_finish_lookup_none c now state code redirect_uri exchange h]
      exact ⟨⟨_, rfl⟩, rfl⟩
    · intro p hp hne
      rw [gmail_finish_mismatch c now state code redirect_uri exchange p hp hne]
      refine ⟨⟨_, rfl⟩, rfl, ?_, ?_⟩
      · simpa using lookupState_popState state (cleanupStates now c.pending)
      · intro now2 code2 redirect2 exchange2
        have hnone : lookupState state (cleanupStates now2
            (popState state (cleanupStates now c.pending))) = none :=
          lookupState_cleanup_none now2 state _
            (lookupState_popState state (cleanupStates now c.pending))
        rw [gmail_finish_lookup_none _ now2 state code2 redirect2 exchange2
          (by simpa using hnone)]
        exact ⟨⟨_, rfl⟩, rfl⟩
  · intro c now state code redirect_uri exchange
    constructor
    · intro h
      by_cases hv : LinkedInClient.validConfig c = true
      · rw [li_finish_lookup_none c now state code redirect_uri exchange hv h]
        exact ⟨⟨_, rfl⟩, rfl⟩
      · rw [li_finish_invalid_config c now state code redirect_uri exchange
          (Bool.not_eq_true _ ▸ hv)]
        exact ⟨⟨_, rfl⟩, rfl⟩
    · intro hv p hp hne
      rw [li_finish_mismatch c now state code redirect_uri exchange p hv hp hne]
      refine ⟨⟨_, rfl⟩, rfl, ?_, ?_⟩
      · simpa using lookupState_popState state (cleanupStates now c.pending)
      · intro now2 code2 redirect2 exchange2
        have hv2 : LinkedInClient.validConfig
            { c with pending := popState state (cleanupStates now c.pending) } =
              true := hv
        have hnone : lookupState state (cleanupStates now2
            (popState state (cleanupStates now c.pending))) = none :=
          lookupState_cleanup_none now2 state _
            (lookupState_popState state (cleanupStates now c.pending))
        rw [li_finish_lookup_none _ now2 state code2 redirect2 exchange2 hv2
          (by simpa using hnone)]
        exact ⟨⟨_, rfl⟩, rfl⟩

/-- Concrete Gmail connector state for the C4 witness: one pending entry
for state `s1` recorded at time 0 with redirect target `r1`. -/
def gmailEx : GmailState :=
  { pending := [(str "s1", { redirect_uri := str "r1", created_at := 0 })]
    token := none
    webClient := true }

/-- Exchange oracle that always fails (never consulted on the error paths). -/
def exFailG : Str → Except Unit Str := fun _ => .error ()

/-- Witness for C4: at time 0 with the mismatched redirect `r2`, the call
fails, writes no token, and removes the entry so a replay fails too. -/
theorem finish_oauth_rejects_unknown_and_mismatched_states_witness :
    (∃ msg, (GmailClient.finishBrowserOauth gmailEx 0 (str "s1") (str "code")
        (str "r2") exFailG).1 = .error msg) ∧
    (GmailClient.finishBrowserOauth gmailEx 0 (str "s1") (str "code")
        (str "r2") exFailG).2.token = none ∧
    lookupState (str "s1") (GmailClient.finishBrowserOauth gmailEx 0 (str "s1")
        (str "code") (str "r2") exFailG).2.pending = none ∧
    (∃ msg, (GmailClient.finishBrowserOauth
        (GmailClient.finishBrowserOauth gmailEx 0 (str "s1") (str "code")
          (str "r2") exFailG).2 1 (str "s1") (str "code") (str "r1")
        exFailG).1 = .error msg) := by
  have hkeep : decide ((0 : ℚ) - (0 : ℚ) ≤ oauthStateTtlSeconds) = true :=
    decide_eq_true (by norm_num [oauthStateTtlSeconds])
  have hp : lookupState (str "s1") (cleanupStates 0 gmailEx.pending) =
      some { redirect_uri := str "r1", created_at := 0 } := by
    simp only [gmailEx, cleanupStates, List.filter, hkeep]
    simp [lookupState, List.find?, str]
  have h := (finish_oauth_rejects_unknown_and_mismatched_states.1 gmailEx 0
    (str "s1") (str "code") (str "r2") exFailG).2
    { redirect_uri := str "r1", created_at := 0 } hp (by decide)
  refine ⟨h.1, h.2.1, h.2.2.1, (h.2.2.2 1 (str "code") (str "r1") exFailG).1⟩

/-- C6: a pending entry older than the 900-second TTL is removed by the
next registry access — the purge in either `start_browser_oauth` or
`finish_browser_oauth` — and `finish_browser_oauth` with that state fails
`AuthRequired` (with the token store untouched), on both connectors. -/
theorem expired_pending_state_unusable :
    (∀ (now : ℚ) (pending : PendingRegistry) (state : Str),
      (∀ e ∈ pending, e.1 = state →
        now - e.2.created_at > oauthStateTtlSeconds) →
      lookupState state (cleanupStates now pending) = none) ∧
    (∀ (c : GmailState) (now : ℚ) (state code redirect_uri : Str)
        (exchange : Str → Except Unit Str),
      (∀ e ∈ c.pending, e.1 = state →
        now - e.2.created_at > oauthStateTtlSeconds) →
      (∃ msg, (GmailClient.finishBrowserOauth c now state code redirect_uri
          exchange).1 = .error msg) ∧
      (GmailClient.finishBrowserOauth c now state code redirect_uri
          exchange).2.token = c.token) ∧
    (∀ (c : GmailState) (now : ℚ) (redirect_uri fresh state : Str),
      c.webClient = true → fresh ≠ state →
      (∀ e ∈ c.pending, e.1 = state →
        now - e.2.created_at > oauthStateTtlSeconds) →
      lookupState state
        (GmailClient.startBrowserOauth c now redirect_uri fresh).2.pending =
          none ∧
      (∀ (now2 : ℚ) (code2 redirect2 : Str)
          (exchange2 : Str → Except Unit Str),
        ∃ msg, (GmailClient.finishBrowserOauth
          (GmailClient.startBrowserOauth c now redirect_uri fresh).2 now2
          state code2 redirect2 exchange2).1 = .error msg)) ∧
    (∀ (c : LinkedInState) (now : ℚ) (state code redirect_uri : Str)
        (exchange : Str → Except Unit LITokenData),
      (∀ e ∈ c.pending, e.1 = state →
        now - e.2.created_at > oauthStateTtlSeconds) →
      (∃ msg, (LinkedInClient.finishBrowserOauth c now state code redirect_uri
          exchange).1 = .error msg) ∧
      (LinkedInClient.finishBrowserOauth c now state code redirect_uri
          exchange).2.token = c.token) ∧
    (∀ (c : LinkedInState) (now : ℚ) (redirect_uri fresh state : Str),
      LinkedInClient.validConfig c = true → fresh ≠ state →
      (∀ e ∈ c.pending, e.1 = state →
        now - e.2.created_at > oauthStateTtlSeconds) →
      lookupState state
        (LinkedInClient.startBrowserOauth c now redirect_uri fresh).2.pending =
          none ∧
      (∀ (now2 : ℚ) (code2 redirect2 : Str)
          (exchange2 : Str → Except Unit LITokenData),
        ∃ msg, (LinkedInClient.finishBrowserOauth
          (LinkedInClient.startBrowserOauth c now redirect_uri fresh).2 now2
          state code2 redirect2 exchange2).1 = .error msg)) := by
  refine ⟨fun now pending state h => lookupState_cleanup_expired now state pending h,
    ?_, ?_, ?_, ?_⟩
  · intro c now state code redirect_uri exchange h
    rw [gmail_finish_lookup_none c now state code redirect_uri exchange
      (lookupState_cleanup_expired now state c.pending h)]
    exact ⟨⟨_, rfl⟩, rfl⟩
  · intro c now redirect_uri fresh state hweb hfr h
    have hpend : (GmailClient.startBrowserOauth c now redirect_uri fresh).2.pending =
        insertState fresh ⟨redirect_uri, now⟩ (cleanupStates now c.pending) := by
      unfold GmailClient.startBrowserOauth
      simp [hweb]
    have hnone : lookupState state
        (insertState fresh ⟨redirect_uri, now⟩ (cleanupStates now c.pending)) =
          none :=
      lookupState_insertState_none state fresh _ _
        (lookupState_cleanup_expired now state c.pending h) hfr
    refine ⟨by rw [hpend]; exact hnone, ?_⟩
    intro now2 code2 redirect2 exchange2
    have hnone2 : lookupState state (cleanupStates now2
        (GmailClient.startBrowserOauth c now redirect_uri fresh).2.pending) =
          none := by
      rw [hpend]
      exact lookupState_cleanup_none now2 state _ hnone
    rw [gmail_finish_lookup_none _ now2 state code2 redirect2 exchange2 hnone2]
    exact ⟨_, rfl⟩
  · intro c now state code redirect_uri exchange h
    by_cases hv : LinkedInClient.validConfig c = true
    · rw [li_finish_lookup_none c now state code redirect_uri exchange hv
        (lookupState_cleanup_expired now state c.pending h)]
      exact ⟨⟨_, rfl⟩, rfl⟩
    · rw [li_finish_invalid_config c now state code redirect_uri exchange
        (Bool.not_eq_true _ ▸ hv)]
      exact ⟨⟨_, rfl⟩, rfl⟩
  · intro c now redirect_uri fresh state hv hfr h
    have hpend : (LinkedInClient.startBrowserOauth c now redirect_uri fresh).2.pending =
        insertState fresh ⟨redirect_uri, now⟩ (cleanupStates now c.pending) := by
      unfold LinkedInClient.startBrowserOauth
      simp [hv]
    have hnone : lookupState state
        (insertState fresh ⟨redirect_uri, now⟩ (cleanupStates now c.pending)) =
          none :=
      lookupState_insertState_none state fresh _ _
        (lookupState_cleanup_expired now state c.pending h) hfr
    refine ⟨by rw [hpend]; exact hnone, ?_⟩
    intro now2 code2 redirect2 exchange2
    by_cases hv2 : LinkedInClient.validConfig
        (LinkedInClient.startBrowserOauth c now redirect_uri fresh).2 = true
    · have hnone2 : lookupState state (cleanupStates now2
          (LinkedInClient.startBrowserOauth c now redirect_uri fresh).2.pending) =
            none := by
        rw [hpend]
        exact lookupState_cleanup_none now2 state _ hnone
      rw [li_finish_lookup_none _ now2 state code2 redirect2 exchange2 hv2 hnone2]
      exact ⟨_, rfl⟩
    · rw [li_finish_invalid_config _ now2 state code2 redirect2 exchange2
        (Bool.not_eq_true _ ▸ hv2)]
      exact ⟨_, rfl⟩

/-- Gmail connector state for the C6 witness: one entry recorded at time 0;
at time 1000 its age 1000 exceeds the 900-second TTL. -/
def gmailExpiredEx : GmailState :=
  { pending := [(str "s1", { redirect_uri := str "r1", created_at := 0 })]
    token := none
    webClient := true }

/-- Witness for C6: at time 1000 the expired entry is purged and the
handshake can no longer complete. -/
theorem expired_pending_state_unusable_witness :
    lookupState (str "s1") (cleanupStates 1000 gmailExpiredEx.pending) = none ∧
    (∃ msg, (GmailClient.finishBrowserOauth gmailExpiredEx 1000 (str "s1")
        (str "code") (str "r1") exFailG).1 = .error msg) ∧
    (GmailClient.finishBrowserOauth gmailExpiredEx 1000 (str "s1")
        (str "code") (str "r1") exFailG).2.token = none ∧
    lookupState (str "s1")
      (GmailClient.startBrowserOauth gmailExpiredEx 1000 (str "r1")
        (str "s2")).2.pending = none := by
  have hexp : ∀ e ∈ gmailExpiredEx.pending, e.1 = str "s1" →
      (1000 : ℚ) - e.2.created_at > oauthStateTtlSeconds := by
    intro e he hst
    simp only [gmailExpiredEx] at he
    rw [List.mem_singleton] at he
    subst he
    norm_num [oauthStateTtlSeconds]
  have h1 := expired_pending_state_unusable.1 1000 gmailExpiredEx.pending
    (str "s1") hexp
  have h2 := expired_pending_state_unusable.2.1 gmailExpiredEx 1000 (str "s1")
    (str "code") (str "r1") exFailG hexp
  have h3 := expired_pending_state_unusable.2.2.1 gmailExpiredEx 1000
    (str "r1") (str "s2") (str "s1") rfl (by decide) hexp
  exact ⟨h1, h2.1, h2.2, h3.1⟩

/-- C8: on a fully validated LinkedIn token exchange the persisted token
carries `created_at = now` and
`expires_at = now + max(60, expires_in - 60)` with `expires_in` defaulting
to 3600 when absent or non-numeric; on every failure path the token file
is untouched (never partially written). -/
theorem linkedin_token_persisted_fields :
    (∀ (c : LinkedInState) (now : ℚ) (state code redirect_uri : Str)
        (exchange : Str → Except Unit LITokenData),
      ((LinkedInClient.finishBrowserOauth c now state code redirect_uri
          exchange).1 = .ok () →
        ∃ td tok, exchange code = .ok td ∧ td.access_token = some tok ∧
          tok ≠ [] ∧
          (LinkedInClient.finishBrowserOauth c now state code redirect_uri
              exchange).2.token = some
            { data := td, created_at := now,
              expires_at := now +
                ((max 60 (expiresSeconds td.expires_in - 60) : ℤ) : ℚ) }) ∧
      (∀ msg, (LinkedInClient.finishBrowserOauth c now state code redirect_uri
          exchange).1 = .error msg →
        (LinkedInClient.finishBrowserOauth c now state code redirect_uri
            exchange).2.token = c.token)) ∧
    expiresSeconds .absent = 3600 ∧ expiresSeconds .other = 3600 ∧
    (∀ n : ℤ, expiresSeconds (.num n) = n) := by
  refine ⟨?_, rfl, rfl, fun n => rfl⟩
  intro c now state code redirect_uri exchange
  by_cases hv : LinkedInClient.validConfig c = true
  · cases hl : lookupState state (cleanupStates now c.pending) with
    | none =>
      rw [li_finish_lookup_none c now state code redirect_uri exchange hv hl]
      exact ⟨fun h => absurd h (by simp), fun msg _ => rfl⟩
    | some p =>
      by_cases hre : p.redirect_uri = redirect_uri
      · cases hex : exchange code with
        | error u =>
          cases u
          rw [li_finish_exchange_error c now state code redirect_uri exchange
            p hv hl hre hex]
          exact ⟨fun h => absurd h (by simp), fun msg _ => rfl⟩
        | ok td =>
          cases hat : td.access_token with
          | none =>
            rw [li_finish_token_absent c now state code redirect_uri exchange
              p td hv hl hre hex hat]
            exact ⟨fun h => absurd h (by simp), fun msg _ => rfl⟩
          | some tok =>
            by_cases htok : tok = []
            · subst htok
              rw [li_finish_token_empty c now state code redirect_uri exchange
                p td hv hl hre hex hat]
              exact ⟨fun h => absurd h (by simp), fun msg _ => rfl⟩
            · rw [li_finish_success c now state code redirect_uri exchange
                p td tok hv hl hre hex hat htok]
              exact ⟨fun _ => ⟨td, tok, rfl, hat, htok, rfl⟩,
                fun msg h => absurd h (by simp)⟩
      · rw [li_finish_mismatch c now state code redirect_uri exchange p hv hl
          hre]
        exact ⟨fun h => absurd h (by simp), fun msg _ => rfl⟩
  · rw [li_finish_invalid_config c now state code redirect_uri exchange
      (Bool.not_eq_true _ ▸ hv)]
    exact ⟨fun h => absurd h (by simp), fun msg _ => rfl⟩

/-- LinkedIn connector state for the C8 witness. -/
def liEx : LinkedInState :=
  { pending := [(str "s1", { redirect_uri := str "r1", created_at := 0 })]
    token := none
    client_id := str "id"
    client_secret := str "secret" }

/-- Token response for the C8 witness: provider reports a 3600-second
lifetime. -/
def liTd : LITokenData :=
  { access_token := some (str "tok"), expires_in := .num 3600 }

/-- Exchange oracle for the C8 witness: the POST succeeds with `liTd`. -/
def exOkLI : Str → Except Unit LITokenData := fun _ => .ok liTd

/-- Witness for C8: a successful exchange at time 0 persists
`created_at = 0` and `expires_at = 0 + max(60, 3600 - 60) = 3540`. -/
theorem linkedin_token_persisted_fields_witness :
    (LinkedInClient.finishBrowserOauth liEx 0 (str "s1") (str "code")
        (str "r1") exOkLI).1 = .ok () ∧
    (LinkedInClient.finishBrowserOauth liEx 0 (str "s1") (str "code")
        (str "r1") exOkLI).2.token =
      some { data := liTd, created_at := 0, expires_at := 3540 } := by
  have hkeep : decide ((0 : ℚ) - (0 : ℚ) ≤ oauthStateTtlSeconds) = true :=
    decide_eq_true (by norm_num [oauthStateTtlSeconds])
  have hp : lookupState (str "s1") (cleanupStates 0 liEx.pending) =
      some { redirect_uri := str "r1", created_at := 0 } := by
    simp only [liEx, cleanupStates, List.filter, hkeep]
    simp [lookupState, List.find?, str]
  have hok := li_finish_success liEx 0 (str "s1") (str "code") (str "r1")
    exOkLI { redirect_uri := str "r1", created_at := 0 } liTd (str "tok")
    (by decide) hp rfl rfl rfl (by decide)
  have h := ((linkedin_token_persisted_fields.1 liEx 0 (str "s1") (str "code")
    (str "r1") exOkLI).1 (by rw [hok]))
  obtain ⟨td, tok, hex, hat, htok, htoken⟩ := h
  have htd : td = liTd := by
    have : Except.ok (ε := Unit) liTd = .ok td := hex
    exact (Except.ok.inj this).symm
  subst htd
  refine ⟨by rw [hok], ?_⟩
  rw [htoken]
  have : (0 : ℚ) + ((max 60 (expiresSeconds liTd.expires_in - 60) : ℤ) : ℚ) =
      3540 := by
    norm_num [liTd, expiresSeconds]
  rw [this]

/-! ## In-memory store and import orchestration (`store.py`,
`routers/resumes.py`, `routers/jobs.py`)

Harvested mailbox attachments are modelled post-extraction: `none` means
the text-extraction collaborator raised `ValueError` for that attachment,
`some (candidate_name, text)` carries the inferred candidate name and the
extracted text. The LinkedIn profile harvest is the
`{candidate_name, text, skills}` triple `fetch_profile_resume` returns. -/

/-- `InMemoryStore`: `_job_id` / `_resume_id` are the next ids to assign. -/
structure Store where
  jobs : List Job
  resumes : List Resume
  job_id : ℤ
  resume_id : ℤ
deriving DecidableEq

/-- `InMemoryStore.__init__`. -/
def Store.init : Store := { jobs := [], resumes := [], job_id := 1, resume_id := 1 }

/-- `InMemoryStore.next_resume_id`. -/
def Store.nextResumeId (s : Store) : ℤ × Store :=
  (s.resume_id, { s with resume_id := s.resume_id + 1 })

/-- `InMemoryStore.next_job_id`. -/
def Store.nextJobId (s : Store) : ℤ × Store :=
  (s.job_id, { s with job_id := s.job_id + 1 })

/-- `_store_resume` (also the body of `create_resume` and `upload_resume`):
allocate an id and append the new record. -/
def storeResume (s : Store) (candidate_name text : Str) (skills : List Str) :
    Resume × Store :=
  let alloc := s.nextResumeId
  let resume : Resume :=
    { id := alloc.1, candidate_name := candidate_name, text := text,
      skills := skills }
  (resume, { alloc.2 with resumes := alloc.2.resumes ++ [resume] })

/-- `create_job`: allocate a job id and append. -/
def storeJob (s : Store) (title description : Str) (required_skills : List Str) :
    Job × Store :=
  let alloc := s.nextJobId
  let job : Job :=
    { id := alloc.1, title := title, description := description,
      required_skills := required_skills }
  (job, { alloc.2 with jobs := alloc.2.jobs ++ [job] })

/-- Running aggregate of `_import_from_gmail_attachments`. -/
structure GmailImportResult where
  imported : List Resume
  skipped_count : Nat
  error_count : Nat
deriving DecidableEq

/-- One iteration of the `_import_from_gmail_attachments` loop. -/
def processAttachment (acc : GmailImportResult × Store)
    (item : Option (Str × Str)) : GmailImportResult × Store :=
  match item with
  | none => ({ acc.1 with error_count := acc.1.error_count + 1 }, acc.2)
  | some (candidate_name, text) =>
    if isDuplicateResume candidate_name text acc.2.resumes then
      ({ acc.1 with skipped_count := acc.1.skipped_count + 1 }, acc.2)
    else
      let stored := storeResume acc.2 candidate_name text []
      ({ acc.1 with imported := acc.1.imported ++ [stored.1] }, stored.2)

/-- `_import_from_gmail_attachments` after the harvest call. -/
def importFromGmailAttachments (items : List (Option (Str × Str)))
    (s : Store) : GmailImportResult × Store :=
  items.foldl processAttachment (⟨[], 0, 0⟩, s)

/-- `_import_from_linkedin_profile` after the harvest call: duplicate
handling selected by `skip_if_duplicate`, otherwise store the profile. -/
def importFromLinkedInProfile (s : Store) (profile : Str × Str × List Str)
    (skip_if_duplicate : Bool) :
    Except (Nat × Str) (Option Resume) × Store :=
  let candidate_name := profile.1
  let text := profile.2.1
  let skills := profile.2.2
  if isDuplicateResume candidate_name text s.resumes then
    if skip_if_duplicate then (.ok none, s)
    else (.error (409, str "LinkedIn profile already imported."), s)
  else
    let stored := storeResume s candidate_name text skills
    (.ok (some stored.1), stored.2)

/-- An outbound request to a provider. -/
inductive ProviderCall
  | gmailFetch
  | linkedinFetch
deriving DecidableEq

/-- `CombinedImportResponse` (count fields). -/
structure CombinedImportResponse where
  gmail_imported_count : Nat
  gmail_skipped_count : Nat
  linkedin_imported_count : Nat
  total_imported_count : Nat
deriving DecidableEq

/-- An HTTP error response (`HTTPException`). -/
structure HTTPError where
  status : Nat
  detail : Str
deriving DecidableEq

/-- `import_resumes_from_gmail_and_linkedin`: the fail-closed
connectivity check, then both single-source imports. The two connectors'
`is_connected()` results are the booleans; the third output component is
the trace of provider contacts. -/
def importCombined (gmailConnected linkedinConnected : Bool)
    (gmailItems : List (Option (Str × Str))) (liProfile : Str × Str × List Str)
    (s : Store) :
    Except HTTPError CombinedImportResponse × Store × List ProviderCall :=
  let missing : List Str :=
    (if !gmailConnected then [str "Gmail"] else []) ++
      (if !linkedinConnected then [str "LinkedIn"] else [])
  if missing ≠ [] then
    (.error
      { status := 400,
        detail := str "Connect " ++ List.intercalate (str " and ") missing ++
          str " before combined import." },
      s, [])
  else
    let g := importFromGmailAttachments gmailItems s
    let li := importFromLinkedInProfile g.2 liProfile true
    let linkedinCount : Nat := match li.1 with
      | .ok (some _) => 1
      | _ => 0
    (.ok
      { gmail_imported_count := g.1.imported.length,
        gmail_skipped_count := g.1.skipped_count,
        linkedin_imported_count := linkedinCount,
        total_imported_count := g.1.imported.length + linkedinCount },
      li.2, [.gmailFetch, .linkedinFetch])

/-- C5: when at least one connector does not report connected, the
combined import fails immediately with a 400 naming every missing
provider, leaves the store untouched, and contacts neither provider. -/
theorem combined_import_fail_closed :
    ∀ (gmailConnected linkedinConnected : Bool)
      (gmailItems : List (Option (Str × Str)))
      (liProfile : Str × Str × List Str) (s : Store),
    (gmailConnected && linkedinConnected) = false →
    ∃ missing : List Str,
      importCombined gmailConnected linkedinConnected gmailItems liProfile s =
        (.error
          { status := 400,
            detail := str "Connect " ++ List.intercalate (str " and ") missing ++
              str " before combined import." },
          s, []) ∧
      missing ≠ [] ∧
      (str "Gmail" ∈ missing ↔ gmailConnected = false) ∧
      (str "LinkedIn" ∈ missing ↔ linkedinConnected = false) := by
  intro g l gmailItems liProfile s h
  cases g <;> cases l
  · exact ⟨[str "Gmail", str "LinkedIn"],
      by simp [importCombined], by decide, by decide, by decide⟩
  · exact ⟨[str "Gmail"],
      by simp [importCombined], by decide, by decide, by decide⟩
  · exact ⟨[str "LinkedIn"],
      by simp [importCombined], by decide, by decide, by decide⟩
  · exact absurd h (by decide)

/-- Witness for C5: Gmail connected, LinkedIn not — the combined import
fails naming exactly LinkedIn, the store is unchanged and no provider is
contacted. -/
theorem combined_import_fail_closed_witness :
    (true && false) = false ∧
    ∃ missing : List Str,
      importCombined true false [] (str "n", str "t", []) Store.init =
        (.error
          { status := 400,
            detail := str "Connect " ++
              List.intercalate (str " and ") missing ++
              str " before combined import." },
          Store.init, []) ∧
      missing ≠ [] ∧
      (str "Gmail" ∈ missing ↔ true = false) ∧
      (str "LinkedIn" ∈ missing ↔ false = false) :=
  ⟨rfl, combined_import_fail_closed true false [] (str "n", str "t", [])
    Store.init rfl⟩

/-! ## Store invariant (C9) -/

/-- One request-level operation on the store: every resume-creation path
(direct submission, upload, mailbox import, profile import, and the
combined import) plus job creation. -/
inductive Step : Store → Store → Prop
  | createResume (candidate_name text : Str) (skills : List Str) (s : Store) :
      Step s (storeResume s candidate_name text skills).2
  | createJob (title description : Str) (required_skills : List Str)
      (s : Store) :
      Step s (storeJob s title description required_skills).2
  | gmailImport (items : List (Option (Str × Str))) (s : Store) :
      Step s (importFromGmailAttachments items s).2
  | linkedinImport (profile : Str × Str × List Str) (skip_if_duplicate : Bool)
      (s : Store) :
      Step s (importFromLinkedInProfile s profile skip_if_duplicate).2
  | combinedImport (gmailConnected linkedinConnected : Bool)
      (items : List (Option (Str × Str))) (profile : Str × Str × List Str)
      (s : Store) :
      Step s (importCombined gmailConnected linkedinConnected items profile
        s).2.1

/-- Store states reachable from process start. -/
def Reachable (s : Store) : Prop :=
  Relation.ReflTransGen Step Store.init s

/-- The id invariant: every stored resume id is below the allocator
counter, and ids are strictly increasing in storage order. -/
def StoreInv (s : Store) : Prop :=
  (∀ r ∈ s.resumes, r.id < s.resume_id) ∧
  s.resumes.Pairwise (fun a b => a.id < b.id)

theorem storeResume_inv (s : Store) (candidate_name text : Str)
    (skills : List Str) (h : StoreInv s) :
    StoreInv (storeResume s candidate_name text skills).2 := by
  obtain ⟨hlt, hpw⟩ := h
  constructor
  · intro r hr
    simp only [storeResume, Store.nextResumeId] at hr
    rcases List.mem_append.mp hr with hold | hnew
    · have := hlt r hold
      simp only [storeResume, Store.nextResumeId]
      omega
    · rw [List.mem_singleton.mp hnew]
      simp only [storeResume, Store.nextResumeId]
      omega
  · simp only [storeResume, Store.nextResumeId]
    rw [List.pairwise_append]
    refine ⟨hpw, List.pairwise_singleton _ _, ?_⟩
    intro a ha b hb
    rw [List.mem_singleton.mp hb]
    exact hlt a ha

theorem storeResume_resumes (s : Store) (candidate_name text : Str)
    (skills : List Str) :
    s.resumes <+: (storeResume s candidate_name text skills).2.resumes :=
  ⟨[(storeResume s candidate_name text skills).1], rfl⟩

theorem processAttachment_inv (acc : GmailImportResult × Store)
    (item : Option (Str × Str)) (h : StoreInv acc.2) :
    StoreInv (processAttachment acc item).2 := by
  cases item with
  | none => exact h
  | some nt =>
    obtain ⟨candidate_name, text⟩ := nt
    simp only [processAttachment]
    by_cases hdup : isDuplicateResume candidate_name text acc.2.resumes
    · rw [if_pos hdup]
      exact h
    · rw [if_neg hdup]
      exact storeResume_inv acc.2 candidate_name text [] h

theorem processAttachment_resumes (acc : GmailImportResult × Store)
    (item : Option (Str × Str)) :
    acc.2.resumes <+: (processAttachment acc item).2.resumes := by
  cases item with
  | none => exact List.prefix_rfl
  | some nt =>
    obtain ⟨candidate_name, text⟩ := nt
    simp only [processAttachment]
    by_cases hdup : isDuplicateResume candidate_name text acc.2.resumes
    · rw [if_pos hdup]
    · rw [if_neg hdup]
      exact storeResume_resumes acc.2 candidate_name text []

theorem foldl_processAttachment_inv (items : List (Option (Str × Str))) :
    ∀ acc : GmailImportResult × Store, StoreInv acc.2 →
      StoreInv (items.foldl processAttachment acc).2 := by
  induction items with
  | nil => exact fun acc h => h
  | cons item rest ih =>
    intro acc h
    rw [List.foldl_cons]
    exact ih (processAttachment acc item) (processAttachment_inv acc item h)

theorem foldl_processAttachment_resumes (items : List (Option (Str × Str))) :
    ∀ acc : GmailImportResult × Store,
      acc.2.resumes <+: (items.foldl processAttachment acc).2.resumes := by
  induction items with
  | nil => exact fun acc => List.prefix_rfl
  | cons item rest ih =>
    intro acc
    rw [List.foldl_cons]
    exact (processAttachment_resumes acc item).trans
      (ih (processAttachment acc item))

theorem importFromGmailAttachments_inv (items : List (Option (Str × Str)))
    (s : Store) (h : StoreInv s) :
    StoreInv (importFromGmailAttachments items s).2 :=
  foldl_processAttachment_inv items (⟨[], 0, 0⟩, s) h

theorem importFromGmailAttachments_resumes (items : List (Option (Str × Str)))
    (s : Store) :
    s.resumes <+: (importFromGmailAttachments items s).2.resumes :=
  foldl_processAttachment_resumes items (⟨[], 0, 0⟩, s)

theorem importFromLinkedInProfile_inv (s : Store)
    (profile : Str × Str × List Str) (skip_if_duplicate : Bool)
    (h : StoreInv s) :
    StoreInv (importFromLinkedInProfile s profile skip_if_duplicate).2 := by
  simp only [importFromLinkedInProfile]
  by_cases hdup : isDuplicateResume profile.1 profile.2.1 s.resumes
  · rw [if_pos hdup]
    cases skip_if_duplicate <;> exact h
  · rw [if_neg hdup]
    exact storeResume_inv s profile.1 profile.2.1 profile.2.2 h

theorem importFromLinkedInProfile_resumes (s : Store)
    (profile : Str × Str × List Str) (skip_if_duplicate : Bool) :
    s.resumes <+:
      (importFromLinkedInProfile s profile skip_if_duplicate).2.resumes := by
  simp only [importFromLinkedInProfile]
  by_cases hdup : isDuplicateResume profile.1 profile.2.1 s.resumes
  · rw [if_pos hdup]
    cases skip_if_duplicate <;> exact List.prefix_rfl
  · rw [if_neg hdup]
    exact storeResume_resumes s profile.1 profile.2.1 profile.2.2

theorem importCombined_inv (gmailConnected linkedinConnected : Bool)
    (items : List (Option (Str × Str))) (profile : Str × Str × List Str)
    (s : Store) (h : StoreInv s) :
    StoreInv (importCombined gmailConnected linkedinConnected items profile
      s).2.1 := by
  unfold importCombined
  by_cases hm : ((if !gmailConnected then [str "Gmail"] else []) ++
      (if !linkedinConnected then [str "LinkedIn"] else [])) ≠ []
  · rw [if_pos hm]
    exact h
  · rw [if_neg hm]
    exact importFromLinkedInProfile_inv _ profile true
      (importFromGmailAttachments_inv items s h)

theorem importCombined_resumes (gmailConnected linkedinConnected : Bool)
    (items : List (Option (Str × Str))) (profile : Str × Str × List Str)
    (s : Store) :
    s.resumes <+: (importCombined gmailConnected linkedinConnected items
      profile s).2.1.resumes := by
  unfold importCombined
  by_cases hm : ((if !gmailConnected then [str "Gmail"] else []) ++
      (if !linkedinConnected then [str "LinkedIn"] else [])) ≠ []
  · rw [if_pos hm]
  · rw [if_neg hm]
    exact (importFromGmailAttachments_resumes items s).trans
      (importFromLinkedInProfile_resumes _ profile true)

theorem step_inv {s s' : Store} (hstep : Step s s') (h : StoreInv s) :
    StoreInv s' := by
  cases hstep with
  | createResume candidate_name text skills s =>
    exact storeResume_inv s candidate_name text skills h
  | createJob title description required_skills s =>
    refine ⟨?_, ?_⟩ <;> simp only [storeJob, Store.nextJobId]
    · exact h.1
    · exact h.2
  | gmailImport items s => exact importFromGmailAttachments_inv items s h
  | linkedinImport profile skip s =>
    exact importFromLinkedInProfile_inv s profile skip h
  | combinedImport g l items profile s =>
    exact importCombined_inv g l items profile s h

theorem step_resumes {s s' : Store} (hstep : Step s s') :
    s.resumes <+: s'.resumes := by
  cases hstep with
  | createResume candidate_name text skills s =>
    exact storeResume_resumes s candidate_name text skills
  | createJob title description required_skills s =>
    simp only [storeJob, Store.nextJobId]
    exact List.prefix_rfl
  | gmailImport items s => exact importFromGmailAttachments_resumes items s
  | linkedinImport profile skip s =>
    exact importFromLinkedInProfile_resumes s profile skip
  | combinedImport g l items profile s =>
    exact importCombined_resumes g l items profile s

theorem reachable_inv (s : Store) (h : Reachable s) : StoreInv s := by
  induction h with
  | refl => exact ⟨by simp [Store.init], by simp [Store.init]⟩
  | tail _ hstep ih => exact step_inv hstep ih

/-- C9: in every reachable store state the resume ids are strictly
increasing in storage order (hence pairwise distinct) and below the
allocator counter, and each creation step only appends — no stored resume
is ever mutated or removed. -/
theorem resume_ids_unique_monotone :
    (∀ s : Store, Reachable s →
      s.resumes.Pairwise (fun a b => a.id < b.id) ∧
      (s.resumes.map (fun r => r.id)).Nodup ∧
      (∀ r ∈ s.resumes, r.id < s.resume_id)) ∧
    (∀ s s' : Store, Step s s' → s.resumes <+: s'.resumes) := by
  constructor
  · intro s h
    obtain ⟨hlt, hpw⟩ := reachable_inv s h
    refine ⟨hpw, ?_, hlt⟩
    have hne : List.Pairwise (fun a b : Resume => a.id ≠ b.id) s.resumes :=
      hpw.imp (fun hab => ne_of_lt hab)
    exact List.pairwise_map.mpr hne
  · intro s s' hstep
    exact step_resumes hstep

/-- Witness for C9: after one direct submission from the initial store the
invariant holds, and the step only appended. -/
theorem resume_ids_unique_monotone_witness :
    Reachable (storeResume Store.init (str "Ada") (str "text") []).2 ∧
    (storeResume Store.init (str "Ada") (str "text") []).2.resumes.Pairwise
      (fun a b => a.id < b.id) ∧
    Store.init.resumes <+:
      (storeResume Store.init (str "Ada") (str "text") []).2.resumes := by
  have hr : Reachable (storeResume Store.init (str "Ada") (str "text") []).2 :=
    Relation.ReflTransGen.single
      (Step.createResume (str "Ada") (str "text") [] Store.init)
  exact ⟨hr, (resume_ids_unique_monotone.1 _ hr).1,
    resume_ids_unique_monotone.2 _ _
      (Step.createResume (str "Ada") (str "text") [] Store.init)⟩

/-! ## Ranking (`match_resumes_to_job`, C7) -/

/-- Python `round` to the nearest integer, halves to even, on exact
rationals. -/
def pyRound0 (q : ℚ) : ℤ :=
  let f : ℤ := Int.fdiv q.num (q.den : ℤ)
  let r : ℚ := q - (f : ℚ)
  if r < 1 / 2 then f
  else if 1 / 2 < r then f + 1
  else if f % 2 = 0 then f else f + 1

/-- `round(x, 4)`. -/
def round4 (q : ℚ) : ℚ := (pyRound0 (q * 10000) : ℚ) / 10000

/-- `MatchResult` (`models.py`). -/
structure MatchResult where
  resume_id : ℤ
  candidate_name : Str
  semantic_score : ℚ
  skill_score : ℚ
  final_score : ℚ
  missing_skills : List Str
deriving DecidableEq

/-- Build one entry of the `results` list of `match_resumes_to_job`. -/
def toMatchResult (semantic : Str → Str → ℚ) (job : Job) (r : Resume) :
    MatchResult :=
  let scored := JobMatcher.match semantic job r
  { resume_id := r.id, candidate_name := r.candidate_name,
    semantic_score := round4 scored.semantic_score,
    skill_score := round4 scored.skill_score,
    final_score := round4 scored.final_score,
    missing_skills := scored.missing_skills }

/-- The ranking core of `match_resumes_to_job`: score every stored resume
in storage order, then `results.sort(key=final_score, reverse=True)` — a
stable sort placing greater final scores first. -/
def rankResumes (semantic : Str → Str → ℚ) (job : Job)
    (resumes : List Resume) : List MatchResult :=
  (resumes.map (toMatchResult semantic job)).mergeSort
    (fun a b => decide (b.final_score ≤ a.final_score))

/-- `match_resumes_to_job`: look up the job by id (first match), 404 when
absent, otherwise the ranked results. -/
def matchResumesToJob (semantic : Str → Str → ℚ) (s : Store) (job_id : ℤ) :
    Except HTTPError (List MatchResult) :=
  match s.jobs.find? (fun j => decide (j.id = job_id)) with
  | none => .error { status := 404, detail := str "Job not found" }
  | some job => .ok (rankResumes semantic job s.resumes)

theorem rank_le_trans :
    ∀ a b c : MatchResult,
      decide (b.final_score ≤ a.final_score) = true →
      decide (c.final_score ≤ b.final_score) = true →
      decide (c.final_score ≤ a.final_score) = true := by
  intro a b c hab hbc
  rw [decide_eq_true_eq] at hab hbc ⊢
  exact le_trans hbc hab

theorem rank_le_total :
    ∀ a b : MatchResult,
      (decide (b.final_score ≤ a.final_score) ||
        decide (a.final_score ≤ b.final_score)) = true := by
  intro a b
  by_cases h : b.final_score ≤ a.final_score
  · simp [h]
  · simp [le_of_not_le h]

/-- C7: ranking computes a match per stored resume (the output is a
permutation of the per-resume results), is sorted descending by
`final_score` (a later entry never has a strictly greater score), the sort
is stable (any correctly-ordered pair of the storage-ordered results — in
particular any tie — keeps its relative order), and the route returns
exactly this ranking for the job found. -/
theorem ranking_sorted_stable (semantic : Str → Str → ℚ) (job : Job)
    (resumes : List Resume) :
    List.Perm (rankResumes semantic job resumes)
      (resumes.map (toMatchResult semantic job)) ∧
    (rankResumes semantic job resumes).Pairwise
      (fun a b => b.final_score ≤ a.final_score) ∧
    (∀ a b : MatchResult,
      List.Sublist [a, b] (resumes.map (toMatchResult semantic job)) →
      b.final_score ≤ a.final_score →
      List.Sublist [a, b] (rankResumes semantic job resumes)) ∧
    (∀ (s : Store) (job_id : ℤ),
      s.jobs.find? (fun j => decide (j.id = job_id)) = some job →
      s.resumes = resumes →
      matchResumesToJob semantic s job_id =
        .ok (rankResumes semantic job resumes)) := by
  refine ⟨List.mergeSort_perm _ _, ?_, ?_, ?_⟩
  · have h := @List.sorted_mergeSort MatchResult
      (fun a b : MatchResult => decide (b.final_score ≤ a.final_score))
      rank_le_trans rank_le_total (resumes.map (toMatchResult semantic job))
    exact h.imp (fun hab => of_decide_eq_true hab)
  · intro a b hsub hle
    exact List.pair_sublist_mergeSort rank_le_trans rank_le_total
      (decide_eq_true hle) hsub
  · intro s job_id hfind hres
    unfold matchResumesToJob
    rw [hfind, hres]

/-- Constant semantic oracle for the C7 witness. -/
def exSem7 : Str → Str → ℚ := fun _ _ => 1 / 2

/-- Job with no required skills for the C7 witness (both resumes then tie
with equal `final_score`). -/
def exJob7 : Job :=
  { id := 1, title := str "T", description := str "jobdesc"
    required_skills := [] }

/-- First stored resume for the C7 witness. -/
def exR1 : Resume :=
  { id := 1, candidate_name := str "A", text := str "t1", skills := [] }

/-- Second stored resume for the C7 witness. -/
def exR2 : Resume :=
  { id := 2, candidate_name := str "B", text := str "t2", skills := [] }

/-- Store holding the C7 witness data. -/
def exStore7 : Store :=
  { jobs := [exJob7], resumes := [exR1, exR2], job_id := 2, resume_id := 3 }

/-- Witness for C7: the two tied resumes keep their storage order in the
ranking, and the route returns that ranking for job 1. -/
theorem ranking_sorted_stable_witness :
    List.Sublist
      [toMatchResult exSem7 exJob7 exR1, toMatchResult exSem7 exJob7 exR2]
      (rankResumes exSem7 exJob7 [exR1, exR2]) ∧
    matchResumesToJob exSem7 exStore7 1 =
      .ok (rankResumes exSem7 exJob7 [exR1, exR2]) := by
  have h := ranking_sorted_stable exSem7 exJob7 [exR1, exR2]
  constructor
  · exact h.2.2.1 (toMatchResult exSem7 exJob7 exR1)
      (toMatchResult exSem7 exJob7 exR2) (List.Sublist.refl _) (le_refl _)
  · exact h.2.2.2 exStore7 1 rfl rfl

/-! ## Mailbox search query (`GmailResumeClient._build_query`, C10) -/

/-- The parts list built by `_build_query`; `defaultLabel` is
`settings.gmail_resume_label`. -/
def buildQueryParts (defaultLabel : Str) (extra_query label : Option Str) :
    List Str :=
  let base : List Str :=
    [str "has:attachment", str "(filename:pdf OR filename:docx OR filename:txt)"]
  let scoped_label : Str :=
    match label with
    | some l => l
    | none => defaultLabel
  let withLabel : List Str :=
    if stripChars scoped_label ≠ [] then
      base ++ [str "label:" ++ stripChars scoped_label]
    else base
  match extra_query with
  | some q => if stripChars q ≠ [] then withLabel ++ [stripChars q] else withLabel
  | none => withLabel

/-- `_build_query`: `" ".join(parts)`. -/
def buildQuery (defaultLabel : Str) (extra_query label : Option Str) : Str :=
  List.intercalate [' '] (buildQueryParts defaultLabel extra_query label)

/-- C10: an explicitly supplied blank (empty or whitespace-only) label
disables the label filter entirely — the query contains no label term and
the configured default label is ignored, which it is not when the label
argument is absent. -/
theorem blank_label_disables_label_filter :
    (∀ (defaultLabel : Str) (extra_query : Option Str) (l : Str),
      stripChars l = [] →
      buildQueryParts defaultLabel extra_query (some l) =
        [str "has:attachment",
         str "(filename:pdf OR filename:docx OR filename:txt)"] ++
          (match extra_query with
           | some q => if stripChars q ≠ [] then [stripChars q] else []
           | none => []) ∧
      buildQuery defaultLabel extra_query (some l) =
        buildQuery [] extra_query (some l)) ∧
    (∀ (defaultLabel : Str) (extra_query : Option Str),
      stripChars defaultLabel ≠ [] →
      buildQueryParts defaultLabel extra_query none =
        ([str "has:attachment",
          str "(filename:pdf OR filename:docx OR filename:txt)",
          str "label:" ++ stripChars defaultLabel] ++
          (match extra_query with
           | some q => if stripChars q ≠ [] then [stripChars q] else []
           | none => []))) := by
  constructor
  · intro defaultLabel extra_query l hl
    have hparts : ∀ d : Str, buildQueryParts d extra_query (some l) =
        [str "has:attachment",
         str "(filename:pdf OR filename:docx OR filename:txt)"] ++
          (match extra_query with
           | some q => if stripChars q ≠ [] then [stripChars q] else []
           | none => []) := by
      intro d
      unfold buildQueryParts
      simp only [hl]
      cases extra_query with
      | none => simp
      | some q =>
        by_cases hq : stripChars q ≠ [] <;> simp [hq]
    refine ⟨hparts defaultLabel, ?_⟩
    unfold buildQuery
    rw [hparts defaultLabel, hparts []]
  · intro defaultLabel extra_query hd
    unfold buildQueryParts
    simp only [hd]
    cases extra_query with
    | none => simp [hd]
    | some q =>
      by_cases hq : stripChars q ≠ [] <;> simp [hq, hd]

/-- Witness for C10: with default label `inbox-resumes` configured, the
explicit whitespace-only label `"  "` yields a query with no label term. -/
theorem blank_label_disables_label_filter_witness :
    stripChars (str "  ") = [] ∧
    buildQueryParts (str "inbox-resumes") none (some (str "  ")) =
      [str "has:attachment",
       str "(filename:pdf OR filename:docx OR filename:txt)"] ∧
    buildQuery (str "inbox-resumes") none (some (str "  ")) =
      buildQuery [] none (some (str "  ")) := by
  have h := (blank_label_disables_label_filter.1 (str "inbox-resumes") none
    (str "  ")) (by decide)
  exact ⟨by decide, by rw [h.1]; simp, h.2⟩

end ResumeEngine
